import Mathlib

/-!
Verification of the ClipAiTest1 client script (`script.js`).

The script installs one click handler on the clip button. The handler reads
the text input, validates it is non-empty (JS truthiness of a string), and
then clears the result area, shows the loader, sets the status text, issues
one POST request to the fixed local endpoint, parses the response body as
JSON, renders either a video element (2xx) or an error message (non-2xx),
renders a generic error message if the transport call or the JSON parse
throws, and finally hides the loader.

The embedding is a shallow one: the handler is a pure function from the
input value and the (externally determined) transport outcome to a trace of
DOM events; a DOM state is threaded through the trace by a fold. The one
JS-specific coercion that matters is that assigning `undefined` to a string
DOM property stores the string "undefined"; `jsToString` models it.
-/

namespace ClipAiTest1

/-- A node rendered in the result display region: either a `<video>` element
(with its `src` and whether `controls` is set) or the error `<div>` whose
class is error-message, carrying its text content. -/
inductive Node where
  | video (src : String) (controls : Bool)
  | errorDiv (text : String)
  deriving DecidableEq, Repr

/-- An outbound HTTP request as passed to `fetch` in the script. -/
structure HttpRequest where
  reqUrl : String
  method : String
  headers : List (String × String)
  body : String
  deriving DecidableEq, Repr

/-- The JSON object the script reads fields from (`data.video_url`,
`data.error`). A field is `none` when absent from the parsed body. -/
structure JsonData where
  video_url : Option String
  error : Option String
  deriving DecidableEq, Repr

/-- Result of `await response.json()`: parsed data, or a parse exception
carrying some detail. -/
inductive JsonResult where
  | ok (data : JsonData)
  | error (detail : String)
  deriving DecidableEq, Repr

/-- Outcome of `await fetch(...)` followed by `await response.json()`:
either a response arrived (with `response.ok` deciding 2xx, and the body
parse either yielding data or throwing with some detail), or the fetch
itself threw with some detail. -/
inductive FetchOutcome where
  | response (ok : Bool) (body : JsonResult)
  | networkError (detail : String)
  deriving DecidableEq, Repr

/-- JS string coercion of a possibly-`undefined` value: `undefined`
interpolated into a template literal, or assigned to a reflected string DOM
attribute such as `video.src`, becomes the string "undefined". -/
def jsToString : Option String → String
  | some s => s
  | none => "undefined"

/-- The DOM state the handler touches: the result area contents, the
loader's `style.display`, the status text, plus the observable log of
alerts shown and requests issued. -/
structure DomState where
  resultArea : List Node
  loaderDisplay : String
  statusText : String
  alerts : List String
  requests : List HttpRequest
  deriving DecidableEq, Repr

/-- One DOM side effect of the handler, in program order. -/
inductive Event where
  | alert (msg : String)
  | setResult (nodes : List Node)
  | appendNode (n : Node)
  | setLoader (v : String)
  | setStatus (v : String)
  | request (r : HttpRequest)
  deriving DecidableEq, Repr

/-- Apply one DOM event to the state. `setResult` models an `innerHTML`
assignment (replacing the contents), `appendNode` models `appendChild`. -/
def applyEvent (s : DomState) : Event → DomState
  | .alert m => { s with alerts := s.alerts ++ [m] }
  | .setResult ns => { s with resultArea := ns }
  | .appendNode n => { s with resultArea := s.resultArea ++ [n] }
  | .setLoader v => { s with loaderDisplay := v }
  | .setStatus v => { s with statusText := v }
  | .request r => { s with requests := s.requests ++ [r] }

/-- Run a trace of DOM events from a state. -/
def run (s : DomState) (tr : List Event) : DomState :=
  tr.foldl applyEvent s

/-- Lowercase hex digit, as emitted by `JSON.stringify` escapes. -/
def hexDigit (n : Nat) : String :=
  String.singleton (if n < 10 then Char.ofNat (48 + n) else Char.ofNat (87 + n))

/-- Per-character escaping of `JSON.stringify` for string values. -/
def jsonEscapeChar (c : Char) : String :=
  if c = '"' then "\\\""
  else if c = '\\' then "\\\\"
  else if c = '\x08' then "\\b"
  else if c = '\x09' then "\\t"
  else if c = '\x0a' then "\\n"
  else if c = '\x0c' then "\\f"
  else if c = '\x0d' then "\\r"
  else if c.toNat < 32 then "\\u00" ++ hexDigit (c.toNat / 16) ++ hexDigit (c.toNat % 16)
  else String.singleton c

/-- `JSON.stringify` of a string value. -/
def jsonQuote (s : String) : String :=
  "\"" ++ String.join (s.data.map jsonEscapeChar) ++ "\""

/-- `JSON.stringify({ url })`: the serialization of the one-field object. -/
def stringifyUrlObj (v : String) : String :=
  "\x7b\"url\":" ++ jsonQuote v ++ "\x7d"

/-- The fixed endpoint the script targets. -/
def clipEndpoint : String := "http://127.0.0.1:5000/clip"

/-- The request the script builds for input value `v`. -/
def clipRequest (v : String) : HttpRequest :=
  { reqUrl := clipEndpoint
    method := "POST"
    headers := [("Content-Type", "application/json")]
    body := stringifyUrlObj v }

/-- The generic message rendered from the `catch` block. -/
def genericErrorText : String :=
  "An unexpected error occurred. Please check the console."

/-- The alert text for a missing input value. -/
def emptyInputAlert : String := "Please enter a YouTube URL."

/-- The trace of DOM events of one invocation of the click handler, as a
function of the input value and the transport outcome. Mirrors `script.js`
line by line: the `if (!url)` guard (falsy only for the empty string),
then clear, loader on, status, fetch, the `response.ok` branch on the
parsed body, the `catch` branch when fetch or `response.json()` throws,
and loader off after the `try`/`catch` in every case. -/
def clickHandlerTrace (inputValue : String) (outcome : FetchOutcome) : List Event :=
  if inputValue = "" then
    [.alert emptyInputAlert]
  else
    [.setResult [], .setLoader ("flex"), .setStatus ("Processing..."),
     .request (clipRequest inputValue)] ++
    (match outcome with
     | .response true (.ok data) =>
         [.appendNode (.video (jsToString data.video_url) true)]
     | .response false (.ok data) =>
         [.setResult [.errorDiv ("Error: " ++ jsToString data.error)]]
     | .response _ (.error _) =>
         [.setResult [.errorDiv genericErrorText]]
     | .networkError _ =>
         [.setResult [.errorDiv genericErrorText]]) ++
    [.setLoader ("none")]

/-- The final DOM state after one invocation of the click handler. -/
def clickHandler (s : DomState) (inputValue : String) (outcome : FetchOutcome) : DomState :=
  run s (clickHandlerTrace inputValue outcome)

/-- A plain initial DOM state used to instantiate theorems. -/
def s0 : DomState :=
  { resultArea := [], loaderDisplay := "none", statusText := "", alerts := [], requests := [] }

/-- C1: for a non-empty input and a 2xx response whose JSON body has
`video_url = x`, the display region afterwards contains exactly one video
element whose source is `x` and whose controls are enabled. -/
theorem c1_success_renders_video (s : DomState) (v x : String) (d : JsonData)
    (hv : v ≠ "") (hx : d.video_url = some x) :
    (clickHandler s v (.response true (.ok d))).resultArea = [Node.video x true] := by
  simp [clickHandler, run, clickHandlerTrace, hv, applyEvent, hx, jsToString]

/-- Witness for C1 at a concrete input. -/
theorem c1_success_renders_video_witness :
    (clickHandler s0 ("u") (.response true (.ok ⟨some ("X"), none⟩))).resultArea
      = [Node.video ("X") true] :=
  c1_success_renders_video s0 ("u") ("X") ⟨some ("X"), none⟩ (by decide) rfl

/-- C2: for every non-empty input value `v` and every transport outcome,
exactly one request is issued (the request log grows by exactly one entry),
and that request is a POST to http://127.0.0.1:5000/clip with the JSON
content-type header and body `JSON.stringify({url: v})`. -/
theorem c2_single_post_request (s : DomState) (v : String) (o : FetchOutcome)
    (hv : v ≠ "") :
    (clickHandler s v o).requests = s.requests ++ [clipRequest v]
    ∧ (clipRequest v).reqUrl = "http://127.0.0.1:5000/clip"
    ∧ (clipRequest v).method = "POST"
    ∧ (clipRequest v).headers = [("Content-Type", "application/json")]
    ∧ (clipRequest v).body = stringifyUrlObj v := by
  refine ⟨?_, rfl, rfl, rfl, rfl⟩
  rcases o with ⟨ok, body⟩ | d
  · rcases body with d | d <;> cases ok <;>
      simp [clickHandler, run, clickHandlerTrace, hv, applyEvent]
  · simp [clickHandler, run, clickHandlerTrace, hv, applyEvent]

/-- Witness for C2 at a concrete input. -/
theorem c2_single_post_request_witness :
    (clickHandler s0 ("u") (.networkError (""))).requests = s0.requests ++ [clipRequest ("u")]
    ∧ (clipRequest ("u")).reqUrl = "http://127.0.0.1:5000/clip"
    ∧ (clipRequest ("u")).method = "POST"
    ∧ (clipRequest ("u")).headers = [("Content-Type", "application/json")]
    ∧ (clipRequest ("u")).body = stringifyUrlObj ("u") :=
  c2_single_post_request s0 ("u") (.networkError ("")) (by decide)

/-- C3: for a non-empty input and a non-2xx response whose JSON body has
`error = e`, the display region afterwards contains one error message whose
text incorporates the literal string `e`. -/
theorem c3_failure_renders_error (s : DomState) (v e : String) (d : JsonData)
    (hv : v ≠ "") (he : d.error = some e) :
    ∃ pre post, (clickHandler s v (.response false (.ok d))).resultArea
      = [Node.errorDiv (pre ++ e ++ post)] := by
  refine ⟨"Error: ", "", ?_⟩
  simp [clickHandler, run, clickHandlerTrace, hv, applyEvent, he, jsToString]

/-- Witness for C3 at a concrete input. -/
theorem c3_failure_renders_error_witness :
    ∃ pre post, (clickHandler s0 ("u") (.response false (.ok ⟨none, some ("bad url")⟩))).resultArea
      = [Node.errorDiv (pre ++ "bad url" ++ post)] :=
  c3_failure_renders_error s0 ("u") ("bad url") ⟨none, some ("bad url")⟩ (by decide) rfl

/-- C4: for a non-empty input, if the transport call throws (network
failure, or a response body that fails to parse as JSON), the display
region afterwards contains the fixed generic error message; because the
rendered text is the same constant for every exception detail `detail`
(which is universally quantified here), no detail of the raw exception is
included. -/
theorem c4_transport_error_generic (s : DomState) (v detail : String) (hv : v ≠ "") :
    (clickHandler s v (.networkError detail)).resultArea = [Node.errorDiv genericErrorText]
    ∧ ∀ ok, (clickHandler s v (.response ok (.error detail))).resultArea
        = [Node.errorDiv genericErrorText] := by
  constructor
  · simp [clickHandler, run, clickHandlerTrace, hv, applyEvent]
  · intro ok
    cases ok <;> simp [clickHandler, run, clickHandlerTrace, hv, applyEvent]

/-- Witness for C4 at a concrete input. -/
theorem c4_transport_error_generic_witness :
    (clickHandler s0 ("u") (.networkError ("ECONNREFUSED"))).resultArea
      = [Node.errorDiv genericErrorText]
    ∧ ∀ ok, (clickHandler s0 ("u") (.response ok (.error ("ECONNREFUSED")))).resultArea
        = [Node.errorDiv genericErrorText] :=
  c4_transport_error_generic s0 ("u") ("ECONNREFUSED") (by decide)

/-- C5: for an empty input value the handler shows the blocking alert and
does nothing else: the final state equals the initial state with exactly
that alert appended (so the display region, the loader, the status text and
the request log are unchanged), and the whole trace is that single alert. -/
theorem c5_empty_input_only_alert (s : DomState) (o : FetchOutcome) :
    clickHandler s ("") o = { s with alerts := s.alerts ++ [emptyInputAlert] }
    ∧ clickHandlerTrace ("") o = [Event.alert emptyInputAlert] := by
  constructor
  · simp [clickHandler, run, clickHandlerTrace, applyEvent]
  · simp [clickHandlerTrace]

/-- C6 counterexample: on the whitespace-only input " " the claim fails.
The guard `if (!url)` tests JS truthiness, and a whitespace-only string is
truthy, so the handler issues a request and shows no alert. -/
theorem c6_whitespace_counterexample :
    (clickHandler s0 (" ") (.networkError (""))).requests = [clipRequest (" ")]
    ∧ (clickHandler s0 (" ") (.networkError (""))).alerts = [] := by
  constructor <;> rfl

/-- C6 amended: for the empty input value no request is issued and the
alert is shown; a whitespace-only (hence non-empty) input value is treated
like any other non-empty value and a request is issued. -/
theorem c6_empty_only_guard (s : DomState) (o : FetchOutcome) (v : String) (hv : v ≠ "") :
    ((clickHandler s ("") o).requests = s.requests
      ∧ (clickHandler s ("") o).alerts = s.alerts ++ [emptyInputAlert])
    ∧ (clickHandler s v o).requests = s.requests ++ [clipRequest v] := by
  refine ⟨⟨?_, ?_⟩, ?_⟩
  · simp [clickHandler, run, clickHandlerTrace, applyEvent]
  · simp [clickHandler, run, clickHandlerTrace, applyEvent]
  · rcases o with ⟨ok, body⟩ | d
    · rcases body with d | d <;> cases ok <;>
        simp [clickHandler, run, clickHandlerTrace, hv, applyEvent]
    · simp [clickHandler, run, clickHandlerTrace, hv, applyEvent]

/-- Witness for the amended C6 at a concrete input. -/
theorem c6_empty_only_guard_witness :
    (((clickHandler s0 ("") (.networkError (""))).requests = s0.requests
      ∧ (clickHandler s0 ("") (.networkError (""))).alerts = s0.alerts ++ [emptyInputAlert])
    ∧ (clickHandler s0 (" ") (.networkError (""))).requests = s0.requests ++ [clipRequest (" ")]) :=
  c6_empty_only_guard s0 (.networkError ("")) (" ") (by decide)

/-- C7: for every non-empty input and every transport outcome (2xx,
non-2xx, parse failure or network failure), the loader is hidden
(`style.display = "none"`) in the final state. -/
theorem c7_loader_hidden (s : DomState) (v : String) (o : FetchOutcome) (hv : v ≠ "") :
    (clickHandler s v o).loaderDisplay = "none" := by
  rcases o with ⟨ok, body⟩ | d
  · rcases body with d | d <;> cases ok <;>
      simp [clickHandler, run, clickHandlerTrace, hv, applyEvent]
  · simp [clickHandler, run, clickHandlerTrace, hv, applyEvent]

/-- Witness for C7 at a concrete input. -/
theorem c7_loader_hidden_witness :
    (clickHandler s0 ("u") (.response true (.ok ⟨some ("X"), none⟩))).loaderDisplay = "none" :=
  c7_loader_hidden s0 ("u") (.response true (.ok ⟨some ("X"), none⟩)) (by decide)

/-- C8 counterexample: when the 2xx response parses but has no `video_url`
field, the handler does NOT fall through to the generic transport-error
path: `video.src = data.video_url` coerces `undefined` to the string
"undefined", so the display region contains a video element with source
"undefined", not the generic error message. -/
theorem c8_missing_field_counterexample :
    (clickHandler s0 ("u") (.response true (.ok ⟨none, none⟩))).resultArea
      = [Node.video ("undefined") true]
    ∧ (clickHandler s0 ("u") (.response true (.ok ⟨none, none⟩))).resultArea
      ≠ [Node.errorDiv genericErrorText] := by
  constructor
  · rfl
  · decide

/-- C8 amended: when the response body fails to parse as JSON the handler
falls through to the generic transport-error path; but when a 2xx response
parses and merely lacks `video_url`, the handler instead renders a video
element whose source is the string "undefined". -/
theorem c8_parse_failure_fallthrough (s : DomState) (v detail : String) (d : JsonData)
    (hv : v ≠ "") (hd : d.video_url = none) :
    (∀ ok, (clickHandler s v (.response ok (.error detail))).resultArea
        = [Node.errorDiv genericErrorText])
    ∧ (clickHandler s v (.response true (.ok d))).resultArea
        = [Node.video ("undefined") true] := by
  constructor
  · intro ok
    cases ok <;> simp [clickHandler, run, clickHandlerTrace, hv, applyEvent]
  · simp [clickHandler, run, clickHandlerTrace, hv, applyEvent, hd, jsToString]

/-- Witness for the amended C8 at a concrete input. -/
theorem c8_parse_failure_fallthrough_witness :
    ((∀ ok, (clickHandler s0 ("u") (.response ok (.error ("not json")))).resultArea
        = [Node.errorDiv genericErrorText])
    ∧ (clickHandler s0 ("u") (.response true (.ok ⟨none, none⟩))).resultArea
        = [Node.video ("undefined") true]) :=
  c8_parse_failure_fallthrough s0 ("u") ("not json") ⟨none, none⟩ (by decide) rfl

/-- C9: for every non-empty input, the display region is cleared before
the busy-indicator is shown. First conjunct: the trace begins by clearing
the result area and only then setting the loader visible. Second conjunct:
starting from any state whose loader is not already visible, at every
intermediate state of the invocation in which the loader is visible the
display contents are independent of what was displayed before the
invocation (replacing the initial result contents by any `r` gives the same
display at that moment), so no result of an earlier invocation is visible
while this invocation's busy-indicator is shown. -/
theorem c9_clear_before_busy (s : DomState) (v : String) (o : FetchOutcome)
    (hv : v ≠ "") (hl : s.loaderDisplay ≠ "flex") :
    (∃ rest, clickHandlerTrace v o
        = Event.setResult [] :: Event.setLoader ("flex") :: rest)
    ∧ ∀ r : List Node,
        ∀ p ∈ List.zip (List.scanl applyEvent s (clickHandlerTrace v o))
            (List.scanl applyEvent { s with resultArea := r } (clickHandlerTrace v o)),
          p.1.loaderDisplay = "flex" → p.1.resultArea = p.2.resultArea := by
  constructor
  · rcases o with ⟨ok, body⟩ | d
    · rcases body with d | d <;> cases ok <;>
        · simp only [clickHandlerTrace, if_neg hv]
          exact ⟨_, rfl⟩
    · simp only [clickHandlerTrace, if_neg hv]
      exact ⟨_, rfl⟩
  · intro r p hp hflex
    rcases o with ⟨ok, body⟩ | d
    · rcases body with d | d <;> cases ok <;>
        · simp [clickHandlerTrace, hv, List.scanl, applyEvent, List.zip, List.zipWith] at hp
          rcases hp with h | h | h | h | h | h | h <;> subst h <;>
            first
              | exact absurd hflex hl
              | rfl
    · simp [clickHandlerTrace, hv, List.scanl, applyEvent, List.zip, List.zipWith] at hp
      rcases hp with h | h | h | h | h | h | h <;> subst h <;>
        first
          | exact absurd hflex hl
          | rfl

/-- Witness for C9 at a concrete input. -/
theorem c9_clear_before_busy_witness :
    (∃ rest, clickHandlerTrace ("u") (.networkError (""))
        = Event.setResult [] :: Event.setLoader ("flex") :: rest)
    ∧ ∀ r : List Node,
        ∀ p ∈ List.zip (List.scanl applyEvent s0 (clickHandlerTrace ("u") (.networkError (""))))
            (List.scanl applyEvent { s0 with resultArea := r }
              (clickHandlerTrace ("u") (.networkError ("")))),
          p.1.loaderDisplay = "flex" → p.1.resultArea = p.2.resultArea :=
  c9_clear_before_busy s0 ("u") (.networkError ("")) (by decide) (by decide)

/-- C10: for every non-empty input and every outcome, the status text is
set to "Processing..." before the request is issued (the trace contains the
status write strictly before the request event), that is the only status
write of the invocation, and the final status text still reads
"Processing...". -/
theorem c10_status_set_once (s : DomState) (v : String) (o : FetchOutcome)
    (hv : v ≠ "") :
    (clickHandler s v o).statusText = "Processing..."
    ∧ List.countP (fun e => match e with | Event.setStatus _ => true | _ => false)
        (clickHandlerTrace v o) = 1
    ∧ ∃ l1 l2 l3, clickHandlerTrace v o
        = l1 ++ Event.setStatus ("Processing...")
            :: (l2 ++ Event.request (clipRequest v) :: l3) := by
  refine ⟨?_, ?_, ?_⟩
  · rcases o with ⟨ok, body⟩ | d
    · rcases body with d | d <;> cases ok <;>
        simp [clickHandler, run, clickHandlerTrace, hv, applyEvent]
    · simp [clickHandler, run, clickHandlerTrace, hv, applyEvent]
  · rcases o with ⟨ok, body⟩ | d
    · rcases body with d | d <;> cases ok <;>
        simp [clickHandlerTrace, hv, List.countP_cons, List.countP_nil]
    · simp [clickHandlerTrace, hv, List.countP_cons, List.countP_nil]
  · refine ⟨[Event.setResult [], Event.setLoader ("flex")], [], ?_, ?_⟩
    · exact (match o with
        | .response true (.ok data) =>
            [.appendNode (.video (jsToString data.video_url) true)]
        | .response false (.ok data) =>
            [.setResult [.errorDiv ("Error: " ++ jsToString data.error)]]
        | .response _ (.error _) =>
            [.setResult [.errorDiv genericErrorText]]
        | .networkError _ =>
            [.setResult [.errorDiv genericErrorText]]) ++ [.setLoader ("none")]
    · simp [clickHandlerTrace, hv]

/-- Witness for C10 at a concrete input. -/
theorem c10_status_set_once_witness :
    (clickHandler s0 ("u") (.networkError (""))).statusText = "Processing..."
    ∧ List.countP (fun e => match e with | Event.setStatus _ => true | _ => false)
        (clickHandlerTrace ("u") (.networkError (""))) = 1
    ∧ ∃ l1 l2 l3, clickHandlerTrace ("u") (.networkError (""))
        = l1 ++ Event.setStatus ("Processing...")
            :: (l2 ++ Event.request (clipRequest ("u")) :: l3) :=
  c10_status_set_once s0 ("u") (.networkError ("")) (by decide)

end ClipAiTest1
